import Mathlib

/-!
Shallow embedding of the Worker record-management service
(`index.js` routes plus `src/models/Worker.js` schema).

The Worker schema (src/models/Worker.js) declares the paths
`id : Number (optional)`, `name/phoneNumber/status/passportNumber : String`,
`permitVisaExpiry : Date`, `RMPaid : Number`; the document store assigns the
identity key `_id` at construction time.  Mongoose casting of request values
against those paths is modelled by the `cast*` functions below; the document
store (find / findByIdAndUpdate / findByIdAndDelete / insertMany / deleteMany)
is modelled as explicit state passing over a list of documents plus a fresh-id
counter.  A store call that fails (connectivity etc.) is modelled by the
`fault` argument of each handler: `some msg` means the awaited store call of
that handler rejects with an error whose message is `msg`.  A handler whose
source has no try/catch turns such a rejection into `HResult.uncaught`;
a handler with try/catch turns it into a 400 response, as in the source.
-/

namespace WorkerApi

/-- A JSON value appearing as a request-body field (the shapes the claims
exercise: null, string, number). -/
inductive JValue where
  | jnull : JValue
  | jstr (s : String) : JValue
  | jnum (n : Int) : JValue
deriving DecidableEq, Repr

/-- A JSON request body: a finite map from field names to values,
as a list of entries (first entry wins on lookup). -/
structure ReqBody where
  fields : List (String × JValue)
deriving DecidableEq, Repr

/-- `req.body.k` : the value of field `k`, or `none` when absent (undefined). -/
def ReqBody.get (b : ReqBody) (k : String) : Option JValue :=
  (b.fields.find? (fun e => e.1 == k)).map (fun e => e.2)

/-- A Worker document as persisted: the store-assigned identity key `_id`
plus the schema paths of src/models/Worker.js.  `none` in an optional field
means the field is absent/null.  Dates are represented by their numeric
encoding. -/
structure Worker where
  _id : Nat
  id : Option Int
  name : Option String
  phoneNumber : Option String
  status : Option String
  passportNumber : Option String
  permitVisaExpiry : Option Int
  RMPaid : Option Int
deriving DecidableEq, Repr

/-- The document store: the workers collection plus the next fresh
identity key the store will assign. -/
structure StoreState where
  docs : List Worker
  nextId : Nat
deriving DecidableEq, Repr

/-- `Worker.findById` / filter by identity key: first document whose `_id`
matches. -/
def StoreState.findDoc (st : StoreState) (wid : Nat) : Option Worker :=
  st.docs.find? (fun d => d._id == wid)

/-- Mongoose cast of an ISO `YYYY-MM-DD` date string; `none` on anything
that does not parse as a calendar date. -/
def parseDate (s : String) : Option Int :=
  match s.toList with
  | [y1, y2, y3, y4, c1, m1, m2, c2, d1, d2] =>
    if c1 = '-' ∧ c2 = '-' ∧ ([y1, y2, y3, y4, m1, m2, d1, d2].all Char.isDigit) then
      let y : Nat := 1000 * (y1.toNat - 48) + 100 * (y2.toNat - 48) + 10 * (y3.toNat - 48) + (y4.toNat - 48)
      let m : Nat := 10 * (m1.toNat - 48) + (m2.toNat - 48)
      let d : Nat := 10 * (d1.toNat - 48) + (d2.toNat - 48)
      if 1 ≤ m ∧ m ≤ 12 ∧ 1 ≤ d ∧ d ≤ 31 then
        some (Int.ofNat (y * 10000 + m * 100 + d))
      else none
    else none
  | _ => none

/-- Cast a present JSON value to a `String` path (strings pass, numbers are
stringified, null clears the field).  `none` means a cast error. -/
def castStrV : JValue → Option (Option String)
  | .jnull => some none
  | .jstr s => some (some s)
  | .jnum n => some (some (toString n))

/-- Cast a present JSON value to a `Number` path (numbers pass, numeric
strings are parsed, other strings fail, null clears the field). -/
def castNumV : JValue → Option (Option Int)
  | .jnull => some none
  | .jnum n => some (some n)
  | .jstr s => (s.toInt?).map some

/-- Cast a present JSON value to a `Date` path (date strings are parsed,
numbers are epoch values, other strings fail, null clears the field). -/
def castDateV : JValue → Option (Option Int)
  | .jnull => some none
  | .jnum n => some (some n)
  | .jstr s => (parseDate s).map some

/-- Cast a possibly-absent body value: an absent field is fine and yields an
absent stored value. -/
def castOpt (c : JValue → Option (Option α)) : Option JValue → Option (Option α)
  | none => some none
  | some v => c v

/-- Mongoose cast of a possibly-absent body value to a `String` path;
string casting never fails (numbers are stringified, null and absence
leave the field absent). -/
def castStrOpt : Option JValue → Option String
  | none => none
  | some .jnull => none
  | some (.jstr s) => some s
  | some (.jnum n) => some (toString n)

/-- The schema-path values of a document other than the store-assigned
`_id`: the result of successful casting. -/
structure WFields where
  id : Option Int
  name : Option String
  phoneNumber : Option String
  status : Option String
  passportNumber : Option String
  permitVisaExpiry : Option Int
  RMPaid : Option Int
deriving DecidableEq, Repr

/-- Attach a store-assigned identity key to cast field values, as the
mongoose document constructor does. -/
def WFields.toWorker (f : WFields) (fresh : Nat) : Worker :=
  ⟨fresh, f.id, f.name, f.phoneNumber, f.status, f.passportNumber, f.permitVisaExpiry, f.RMPaid⟩

/-- Validation performed when `POST /worker` saves the document built from
exactly the six picked body fields (`new Worker({name: req.body.name, ...})`
in the source); the schema path `id` is never supplied by this handler.
Only the `Date` and `Number` paths can fail to cast; a failure carries the
mongoose-style validation message. -/
def castFields6 (b : ReqBody) : Except String WFields :=
  match castOpt castDateV (b.get "permitVisaExpiry"), castOpt castNumV (b.get "RMPaid") with
  | some pve, some rm =>
    .ok ⟨none, castStrOpt (b.get "name"), castStrOpt (b.get "phoneNumber"),
         castStrOpt (b.get "status"), castStrOpt (b.get "passportNumber"), pve, rm⟩
  | none, _ => .error "Worker validation failed: permitVisaExpiry: Cast to Date failed"
  | some _, none => .error "Worker validation failed: RMPaid: Cast to Number failed"

/-- Validation performed when `POST /workers` constructs `new Worker(worker)`
from a whole body element: every schema path is taken from the body
(strict mode discards non-schema fields); the `Number` path `id` can also
fail to cast here. -/
def castFieldsFull (b : ReqBody) : Except String WFields :=
  match castOpt castNumV (b.get "id"), castOpt castDateV (b.get "permitVisaExpiry"),
        castOpt castNumV (b.get "RMPaid") with
  | some i, some pve, some rm =>
    .ok ⟨i, castStrOpt (b.get "name"), castStrOpt (b.get "phoneNumber"),
         castStrOpt (b.get "status"), castStrOpt (b.get "passportNumber"), pve, rm⟩
  | none, _, _ => .error "Worker validation failed: id: Cast to Number failed"
  | some _, none, _ => .error "Worker validation failed: permitVisaExpiry: Cast to Date failed"
  | some _, some _, none => .error "Worker validation failed: RMPaid: Cast to Number failed"

/-- A `$set`-style update document: for each schema path, `none` means the
path is absent from the update (kept), `some v` means it is set to `v`. -/
structure UpdateDoc where
  id : Option (Option Int)
  name : Option (Option String)
  phoneNumber : Option (Option String)
  status : Option (Option String)
  passportNumber : Option (Option String)
  permitVisaExpiry : Option (Option Int)
  RMPaid : Option (Option Int)
deriving DecidableEq, Repr

/-- Apply an update document to a stored worker: set the present paths,
keep the rest; the identity key is immutable. -/
def UpdateDoc.apply (u : UpdateDoc) (w : Worker) : Worker :=
  { w with
    id := u.id.getD w.id
    name := u.name.getD w.name
    phoneNumber := u.phoneNumber.getD w.phoneNumber
    status := u.status.getD w.status
    passportNumber := u.passportNumber.getD w.passportNumber
    permitVisaExpiry := u.permitVisaExpiry.getD w.permitVisaExpiry
    RMPaid := u.RMPaid.getD w.RMPaid }

/-- Cast one update-document path: absent stays absent, a present value is
cast and a cast failure rejects the whole update with a CastError message. -/
def castUpdField (path ty : String) (c : JValue → Option (Option α)) :
    Option JValue → Except String (Option (Option α))
  | none => .ok none
  | some v =>
    match c v with
    | some r => .ok (some r)
    | none => .error ("Cast to " ++ ty ++ " failed at path " ++ path)

/-- Cast one possibly-present update value for a `String` path (never
fails). -/
def castUpdStr (o : Option JValue) : Option (Option String) :=
  o.map (fun v => castStrOpt (some v))

/-- Cast a whole request body into an update document, as
`findByIdAndUpdate(id, req.body, ...)` does before touching the store
(strict mode: only schema paths are applied; only the `Number` and `Date`
paths can fail to cast). -/
def castUpdate (b : ReqBody) : Except String UpdateDoc :=
  match castUpdField "id" "Number" castNumV (b.get "id"),
        castUpdField "permitVisaExpiry" "Date" castDateV (b.get "permitVisaExpiry"),
        castUpdField "RMPaid" "Number" castNumV (b.get "RMPaid") with
  | .ok i, .ok pve, .ok rm =>
    .ok ⟨i, castUpdStr (b.get "name"), castUpdStr (b.get "phoneNumber"),
         castUpdStr (b.get "status"), castUpdStr (b.get "passportNumber"), pve, rm⟩
  | .error m, _, _ => .error m
  | _, .error m, _ => .error m
  | _, _, .error m => .error m

/-- `findByIdAndUpdate(id, u, { new: true })`: update the matched document in
place and return the post-update document, or `none` when no document
matches. -/
def StoreState.updateById (st : StoreState) (wid : Nat) (u : Worker → Worker) :
    Option Worker × StoreState :=
  match st.findDoc wid with
  | none => (none, st)
  | some w =>
    (some (u w), { st with docs := st.docs.map (fun d => if d._id == wid then u d else d) })

/-- `findByIdAndDelete(id)`: remove the matched document and return its
snapshot, or `none` when no document matches. -/
def StoreState.deleteById (st : StoreState) (wid : Nat) : Option Worker × StoreState :=
  match st.findDoc wid with
  | none => (none, st)
  | some w => (some w, { st with docs := st.docs.eraseP (fun d => d._id == wid) })

/-- A response body the handlers produce: a single document, a document
array, a `{message}` object, or the JSON `null` that `res.json(null)`
sends. -/
inductive RBody where
  | workerJson (w : Worker) : RBody
  | workersJson (ws : List Worker) : RBody
  | messageJson (m : String) : RBody
  | nullJson : RBody
deriving DecidableEq, Repr

/-- An HTTP response: status code plus JSON body. -/
structure Response where
  status : Nat
  body : RBody
deriving DecidableEq, Repr

/-- Outcome of running a handler: either a response was sent, or the awaited
store call rejected with no try/catch around it and the rejection left the
handler uncaught. -/
inductive HResult where
  | ok (r : Response) : HResult
  | uncaught (msg : String) : HResult
deriving DecidableEq, Repr

/-- `GET /workers` — no try/catch in the source. -/
def getWorkers (st : StoreState) (fault : Option String) : HResult × StoreState :=
  match fault with
  | some msg => (.uncaught msg, st)
  | none => (.ok ⟨200, .workersJson st.docs⟩, st)

/-- `GET /worker/:id` — `res.json(worker)` where `worker` may be `null`;
no try/catch in the source. -/
def getWorkerById (st : StoreState) (fault : Option String) (wid : Nat) :
    HResult × StoreState :=
  match fault with
  | some msg => (.uncaught msg, st)
  | none =>
    match st.findDoc wid with
    | some w => (.ok ⟨200, .workerJson w⟩, st)
    | none => (.ok ⟨200, .nullJson⟩, st)

/-- `PUT /worker/:id/updateRMPaid` — destructures `RMPaid` from the body,
runs `findByIdAndUpdate(id, { RMPaid }, { new: true })`; an undefined
`RMPaid` is stripped from the update; no try/catch in the source. -/
def putUpdateRMPaid (st : StoreState) (fault : Option String) (wid : Nat) (b : ReqBody) :
    HResult × StoreState :=
  match castUpdField "RMPaid" "Number" castNumV (b.get "RMPaid") with
  | .error m => (.uncaught m, st)
  | .ok rm =>
    match fault with
    | some msg => (.uncaught msg, st)
    | none =>
      match st.updateById wid (fun w => { w with RMPaid := rm.getD w.RMPaid }) with
      | (none, st') => (.ok ⟨200, .nullJson⟩, st')
      | (some w', st') => (.ok ⟨200, .workerJson w'⟩, st')

/-- `PUT /worker/:id` — `findByIdAndUpdate(id, req.body, { new: true })`;
no try/catch in the source. -/
def putWorker (st : StoreState) (fault : Option String) (wid : Nat) (b : ReqBody) :
    HResult × StoreState :=
  match castUpdate b with
  | .error m => (.uncaught m, st)
  | .ok u =>
    match fault with
    | some msg => (.uncaught msg, st)
    | none =>
      match st.updateById wid u.apply with
      | (none, st') => (.ok ⟨200, .nullJson⟩, st')
      | (some w', st') => (.ok ⟨200, .workerJson w'⟩, st')

/-- `POST /worker` — builds the document from exactly the six picked body
fields, saves inside try/catch: validation or store failure gives 400 with
the error message, success gives 201 with the created document. -/
def postWorker (st : StoreState) (fault : Option String) (b : ReqBody) :
    HResult × StoreState :=
  match castFields6 b with
  | .error m => (.ok ⟨400, .messageJson m⟩, st)
  | .ok f =>
    match fault with
    | some msg => (.ok ⟨400, .messageJson msg⟩, st)
    | none =>
      let w := f.toWorker st.nextId
      (.ok ⟨201, .workerJson w⟩, ⟨st.docs ++ [w], st.nextId + 1⟩)

/-- Construct the documents for `POST /workers` in order, assigning
consecutive fresh identity keys; the first validation failure rejects the
whole batch with its message. -/
def buildMany (fresh : Nat) : List ReqBody → Except String (List Worker)
  | [] => .ok []
  | b :: rest =>
    match castFieldsFull b with
    | .error m => .error m
    | .ok f => (buildMany (fresh + 1) rest).map (fun ws => f.toWorker fresh :: ws)

/-- `POST /workers` — maps the body through the document constructor, then
`insertMany` inside try/catch: any validation or store failure gives a
single 400 for the batch, success gives 201 with the constructed array. -/
def postWorkers (st : StoreState) (fault : Option String) (bs : List ReqBody) :
    HResult × StoreState :=
  match buildMany st.nextId bs with
  | .error m => (.ok ⟨400, .messageJson m⟩, st)
  | .ok ws =>
    match fault with
    | some msg => (.ok ⟨400, .messageJson msg⟩, st)
    | none => (.ok ⟨201, .workersJson ws⟩, ⟨st.docs ++ ws, st.nextId + bs.length⟩)

/-- `DELETE /worker/:id` — `findByIdAndDelete` inside try/catch: 200 with
the deleted snapshot, 404 `{message: "Worker not found"}` when no match,
400 with the error message when the store call fails. -/
def deleteWorkerById (st : StoreState) (fault : Option String) (wid : Nat) :
    HResult × StoreState :=
  match fault with
  | some msg => (.ok ⟨400, .messageJson msg⟩, st)
  | none =>
    match st.deleteById wid with
    | (none, st') => (.ok ⟨404, .messageJson "Worker not found"⟩, st')
    | (some w, st') => (.ok ⟨200, .workerJson w⟩, st')

/-- `DELETE /workers` — `deleteMany()` then 200
`{message: "All workers deleted"}`; no try/catch in the source. -/
def deleteWorkers (st : StoreState) (fault : Option String) : HResult × StoreState :=
  match fault with
  | some msg => (.uncaught msg, st)
  | none => (.ok ⟨200, .messageJson "All workers deleted"⟩, ⟨[], st.nextId⟩)

/-- The empty store with fresh counter 0. -/
def emptyStore : StoreState := ⟨[], 0⟩

/-- A concrete worker document, as created by
`POST /worker {"name":"Ana","RMPaid":100}` on the empty store. -/
def wAna : Worker := ⟨0, none, some "Ana", none, none, none, none, some 100⟩

/-- A store holding just `wAna`, with fresh counter 1. -/
def stAna : StoreState := ⟨[wAna], 1⟩

/-- The request body `{"name":"Ana","RMPaid":100}`. -/
def bAna : ReqBody := ⟨[("name", .jstr "Ana"), ("RMPaid", .jnum 100)]⟩

/-- The request body `{"permitVisaExpiry":"not-a-date"}`. -/
def bBadDate : ReqBody := ⟨[("permitVisaExpiry", .jstr "not-a-date")]⟩

/-- The body `bAna` with extra non-schema fields and a client-supplied
identity key appended. -/
def bAnaExtra : ReqBody :=
  ⟨[("name", .jstr "Ana"), ("RMPaid", .jnum 100),
    ("_id", .jnum 999), ("id", .jnum 7), ("nationality", .jstr "MY")]⟩

/-- The six body fields `POST /worker` reads (`req.body.name` ...
`req.body.RMPaid`), as a tuple. -/
def pickSix (b : ReqBody) :
    Option JValue × Option JValue × Option JValue × Option JValue × Option JValue × Option JValue :=
  (b.get "name", b.get "phoneNumber", b.get "status", b.get "passportNumber",
   b.get "permitVisaExpiry", b.get "RMPaid")

/-- The per-document transformation `findByIdAndUpdate(wid, {RMPaid: n})`
performs on the collection. -/
def setRM (wid : Nat) (n : Int) : Worker → Worker :=
  fun d => if d._id == wid then { d with RMPaid := some n } else d

/- ------------------------------------------------------------------ -/
/- Helper lemmas                                                      -/
/- ------------------------------------------------------------------ -/

/-- Searching by identity key commutes with mapping an id-preserving
document transformation over the collection. -/
theorem find?_map_of_id_pres (g : Worker → Worker) (hg : ∀ d, (g d)._id = d._id)
    (l : List Worker) (wid : Nat) :
    (l.map g).find? (fun d => d._id == wid) = (l.find? (fun d => d._id == wid)).map g := by
  rw [List.find?_map]
  have hp : ((fun d : Worker => d._id == wid) ∘ g) = (fun d : Worker => d._id == wid) := by
    funext d; simp [Function.comp, hg]
  rw [hp]

/-- Mapping an idempotent document transformation twice is the same as
mapping it once. -/
theorem map_map_of_idem (g : Worker → Worker) (hg : ∀ d, g (g d) = g d) (l : List Worker) :
    (l.map g).map g = l.map g := by
  rw [List.map_map]
  have hgg : (g ∘ g) = g := by funext d; exact hg d
  rw [hgg]

theorem setRM_id (wid : Nat) (n : Int) (d : Worker) : (setRM wid n d)._id = d._id := by
  by_cases hd : (d._id == wid) = true <;> simp [setRM, hd]

theorem setRM_idem (wid : Nat) (n : Int) (d : Worker) :
    setRM wid n (setRM wid n d) = setRM wid n d := by
  by_cases hd : (d._id == wid) = true <;> simp [setRM, hd]

/-- Computation of `PUT /worker/:id/updateRMPaid` with body `{RMPaid: n}`
on a store where the identity key matches: it answers 200 with the
post-update document and rewrites just that document in the collection. -/
theorem putUpdateRMPaid_eq (st : StoreState) (wid : Nat) (w : Worker) (n : Int)
    (h : st.findDoc wid = some w) :
    putUpdateRMPaid st none wid ⟨[("RMPaid", JValue.jnum n)]⟩
      = (.ok ⟨200, .workerJson { w with RMPaid := some n }⟩,
         ⟨st.docs.map (setRM wid n), st.nextId⟩) := by
  have h1 : castUpdField "RMPaid" "Number" castNumV
      ((⟨[("RMPaid", JValue.jnum n)]⟩ : ReqBody).get "RMPaid") = .ok (some (some n)) := rfl
  simp only [putUpdateRMPaid, h1, StoreState.updateById, h, Option.getD]
  rfl

/-- Computation of `PUT /worker/:id` on a store where the identity key
matches and the update body casts: it answers 200 with the merged document
and rewrites just that document in the collection. -/
theorem putWorker_eq (st : StoreState) (wid : Nat) (w : Worker) (b : ReqBody) (u : UpdateDoc)
    (hc : castUpdate b = .ok u) (h : st.findDoc wid = some w) :
    putWorker st none wid b
      = (.ok ⟨200, .workerJson (u.apply w)⟩,
         ⟨st.docs.map (fun d => if d._id == wid then u.apply d else d), st.nextId⟩) := by
  simp only [putWorker, hc, StoreState.updateById, h]

/-- After rewriting the matched document with an id-preserving
transformation, looking the identity key up again finds the transformed
document. -/
theorem findDoc_map_applyAt (st : StoreState) (k wid : Nat) (u : Worker → Worker)
    (hu : ∀ d, (u d)._id = d._id) (w : Worker) (h : st.findDoc wid = some w) :
    (⟨st.docs.map (fun d => if d._id == wid then u d else d), k⟩ : StoreState).findDoc wid
      = some (u w) := by
  have hf0 : st.docs.find? (fun d => d._id == wid) = some w := h
  have hw : (w._id == wid) = true := by simpa using List.find?_some hf0
  have hg : ∀ d, ((fun d => if d._id == wid then u d else d) d)._id = d._id := by
    intro d; by_cases hd : (d._id == wid) = true <;> simp [hd, hu]
  show (st.docs.map _).find? (fun d => d._id == wid) = some (u w)
  rw [find?_map_of_id_pres _ hg st.docs wid, hf0]
  show some (if (w._id == wid) = true then u w else w) = some (u w)
  rw [if_pos hw]

/-- A successful single-create validation never sets the `id` schema path
(the handler does not pick it from the body). -/
theorem castFields6_id_none (b : ReqBody) (f : WFields) (hf : castFields6 b = .ok f) :
    f.id = none := by
  unfold castFields6 at hf
  cases hd : castOpt castDateV (b.get "permitVisaExpiry") <;> rw [hd] at hf
  · simp at hf
  · cases hn : castOpt castNumV (b.get "RMPaid") <;> rw [hn] at hf
    · simp at hf
    · injection hf with hf
      rw [← hf]

/-- Constructing the documents of a fully-valid batch succeeds and assigns
the consecutive fresh identity keys. -/
theorem buildMany_ok_of_all (bs : List ReqBody) (fresh : Nat)
    (h : ∀ b ∈ bs, (castFieldsFull b).isOk = true) :
    ∃ ws, buildMany fresh bs = .ok ws
      ∧ ws.map Worker._id = List.range' fresh bs.length := by
  induction bs generalizing fresh with
  | nil => exact ⟨[], rfl, rfl⟩
  | cons b rest ih =>
    have hb := h b (List.mem_cons_self b rest)
    cases hcast : castFieldsFull b with
    | error m => rw [hcast] at hb; simp [Except.isOk, Except.toBool] at hb
    | ok f =>
      obtain ⟨ws, hws, hids⟩ := ih (fresh + 1) (fun x hx => h x (List.mem_cons_of_mem b hx))
      refine ⟨f.toWorker fresh :: ws, ?_, ?_⟩
      · simp [buildMany, hcast, hws, Except.map]
      · show (f.toWorker fresh)._id :: List.map Worker._id ws
            = fresh :: List.range' (fresh + 1) rest.length
        rw [hids]
        rfl

/-- A batch containing an invalid element fails to construct, with the
first validation failure's message. -/
theorem buildMany_error_of_mem (bs : List ReqBody) (fresh : Nat) (b : ReqBody)
    (hb : b ∈ bs) (hbad : (castFieldsFull b).isOk = false) :
    ∃ m, buildMany fresh bs = .error m := by
  induction bs generalizing fresh with
  | nil => cases hb
  | cons hd tl ih =>
    cases hcast : castFieldsFull hd with
    | error m => exact ⟨m, by simp [buildMany, hcast]⟩
    | ok f =>
      rcases List.mem_cons.mp hb with rfl | hmem
      · rw [hcast] at hbad; simp [Except.isOk, Except.toBool] at hbad
      · obtain ⟨m, hm⟩ := ih (fresh + 1) hmem
        exact ⟨m, by simp [buildMany, hcast, hm, Except.map]⟩

end WorkerApi

namespace WorkerApi

/- ------------------------------------------------------------------ -/
/- Claim theorems                                                     -/
/- ------------------------------------------------------------------ -/

/-- C1: for every delete-by-id request, a matching record gives status 200
with the deleted record snapshot, no match gives status 404 with
`{message:"Worker not found"}`, and a failing store call gives status 400
with the error message. -/
theorem deleteById_response_spec (st : StoreState) (wid : Nat) :
    (∀ w, st.findDoc wid = some w →
      (deleteWorkerById st none wid).1 = .ok ⟨200, .workerJson w⟩)
    ∧ (st.findDoc wid = none →
      (deleteWorkerById st none wid).1 = .ok ⟨404, .messageJson "Worker not found"⟩)
    ∧ (∀ msg, (deleteWorkerById st (some msg) wid).1 = .ok ⟨400, .messageJson msg⟩) := by
  refine ⟨fun w h => ?_, fun h => ?_, fun msg => rfl⟩
  · simp [deleteWorkerById, StoreState.deleteById, h]
  · simp [deleteWorkerById, StoreState.deleteById, h]

/-- Witness for C1 at concrete inputs: a store holding worker `wAna`,
the empty store, and a store fault `"db down"`. -/
theorem deleteById_response_spec_w :
    (deleteWorkerById stAna none 0).1 = .ok ⟨200, .workerJson wAna⟩
    ∧ (deleteWorkerById emptyStore none 0).1 = .ok ⟨404, .messageJson "Worker not found"⟩
    ∧ (deleteWorkerById stAna (some "db down") 0).1 = .ok ⟨400, .messageJson "db down"⟩ :=
  ⟨(deleteById_response_spec stAna 0).1 wAna rfl,
   (deleteById_response_spec emptyStore 0).2.1 rfl,
   (deleteById_response_spec stAna 0).2.2 "db down"⟩

/-- C2: the get-by-id handler does not surface "not found": after deleting
worker 0, `GET /worker/0` answers status 200 with a JSON null body
(`res.json(worker)` with `worker = null`), not a 404 error. -/
theorem getById_after_delete_is_null :
    (getWorkerById (deleteWorkerById stAna none 0).2 none 0).1 = .ok ⟨200, .nullJson⟩ := rfl

/-- C3 counterexample: a failing store call in the get-by-id handler is not
caught at the handler boundary — the rejection leaves the handler uncaught
instead of becoming an HTTP error response. -/
theorem getById_fault_uncaught :
    (getWorkerById stAna (some "connection lost") 0).1 = .uncaught "connection lost" := rfl

/-- C3 amended: a failing store call is caught and converted to a status-400
response in the single-create, bulk-create and delete-by-id handlers; in the
list-all, get-by-id, update-fields, update-RMPaid and delete-all handlers
the failure propagates out of the handler uncaught. -/
theorem storeFault_boundary (st : StoreState) (wid : Nat) (b : ReqBody)
    (bs : List ReqBody) (msg : String) :
    (deleteWorkerById st (some msg) wid).1 = .ok ⟨400, .messageJson msg⟩
    ∧ (∃ m, (postWorker st (some msg) b).1 = .ok ⟨400, .messageJson m⟩)
    ∧ (∃ m, (postWorkers st (some msg) bs).1 = .ok ⟨400, .messageJson m⟩)
    ∧ (getWorkers st (some msg)).1 = .uncaught msg
    ∧ (getWorkerById st (some msg) wid).1 = .uncaught msg
    ∧ (∃ m, (putWorker st (some msg) wid b).1 = .uncaught m)
    ∧ (∃ m, (putUpdateRMPaid st (some msg) wid b).1 = .uncaught m)
    ∧ (deleteWorkers st (some msg)).1 = .uncaught msg := by
  refine ⟨rfl, ?_, ?_, rfl, rfl, ?_, ?_, rfl⟩
  · cases hc : castFields6 b with
    | error m => exact ⟨m, by simp [postWorker, hc]⟩
    | ok f => exact ⟨msg, by simp [postWorker, hc]⟩
  · cases hc : buildMany st.nextId bs with
    | error m => exact ⟨m, by simp [postWorkers, hc]⟩
    | ok ws => exact ⟨msg, by simp [postWorkers, hc]⟩
  · cases hc : castUpdate b with
    | error m => exact ⟨m, by simp [putWorker, hc]⟩
    | ok u => exact ⟨msg, by simp [putWorker, hc]⟩
  · cases hc : castUpdField "RMPaid" "Number" castNumV (b.get "RMPaid") with
    | error m => exact ⟨m, by simp [putUpdateRMPaid, hc]⟩
    | ok rm => exact ⟨msg, by simp [putUpdateRMPaid, hc]⟩

/-- C4: updating an existing record through `PUT /worker/:id/updateRMPaid`
with `{RMPaid: n}` changes only the `RMPaid` field — the response and the
stored document are the old record with just `RMPaid` replaced (identity
key and all other fields untouched) — and repeating the same request with
the same value returns the same response and leaves the store identical. -/
theorem updateRMPaid_frame (st : StoreState) (wid : Nat) (w : Worker) (n : Int)
    (h : st.findDoc wid = some w) :
    (putUpdateRMPaid st none wid ⟨[("RMPaid", JValue.jnum n)]⟩).1
      = .ok ⟨200, .workerJson { w with RMPaid := some n }⟩
    ∧ (putUpdateRMPaid st none wid ⟨[("RMPaid", JValue.jnum n)]⟩).2.findDoc wid
      = some { w with RMPaid := some n }
    ∧ putUpdateRMPaid (putUpdateRMPaid st none wid ⟨[("RMPaid", JValue.jnum n)]⟩).2
        none wid ⟨[("RMPaid", JValue.jnum n)]⟩
      = putUpdateRMPaid st none wid ⟨[("RMPaid", JValue.jnum n)]⟩ := by
  have hkey := putUpdateRMPaid_eq st wid w n h
  have hf0 : st.docs.find? (fun d => d._id == wid) = some w := h
  have hw : (w._id == wid) = true := by simpa using List.find?_some hf0
  have hst2 : (putUpdateRMPaid st none wid ⟨[("RMPaid", JValue.jnum n)]⟩).2
      = ⟨st.docs.map (setRM wid n), st.nextId⟩ := by rw [hkey]
  have hfind2 : (⟨st.docs.map (setRM wid n), st.nextId⟩ : StoreState).findDoc wid
      = some { w with RMPaid := some n } := by
    show (st.docs.map (setRM wid n)).find? (fun d => d._id == wid) = _
    rw [find?_map_of_id_pres (setRM wid n) (setRM_id wid n) st.docs wid]
    have hf : st.docs.find? (fun d => d._id == wid) = some w := h
    rw [hf]
    simp [setRM, hw]
  refine ⟨by rw [hkey], by rw [hst2]; exact hfind2, ?_⟩
  have hkey2 := putUpdateRMPaid_eq (⟨st.docs.map (setRM wid n), st.nextId⟩ : StoreState)
      wid { w with RMPaid := some n } n hfind2
  rw [hst2, hkey2, hkey, map_map_of_idem (setRM wid n) (setRM_idem wid n) st.docs]

/-- Witness for C4: updating `RMPaid` to 150 on the store holding `wAna`. -/
theorem updateRMPaid_frame_w :
    (putUpdateRMPaid stAna none 0 ⟨[("RMPaid", JValue.jnum 150)]⟩).1
      = .ok ⟨200, .workerJson { wAna with RMPaid := some 150 }⟩ :=
  (updateRMPaid_frame stAna 0 wAna 150 rfl).1

/-- C9: on any store state, `DELETE /workers` answers status 200 with
`{message:"All workers deleted"}` and empties the collection, so a
subsequent `GET /workers` answers status 200 with an empty array. -/
theorem deleteAll_then_list_empty (st : StoreState) :
    deleteWorkers st none
      = (.ok ⟨200, .messageJson "All workers deleted"⟩, ⟨[], st.nextId⟩)
    ∧ (getWorkers (deleteWorkers st none).2 none).1 = .ok ⟨200, .workersJson []⟩ :=
  ⟨rfl, rfl⟩

/-- C5: a bulk-create request whose N elements all pass validation answers
status 201 with exactly N created records whose identity keys are pairwise
distinct (the store assigns consecutive fresh keys). -/
theorem postWorkers_bulk_spec (st : StoreState) (bs : List ReqBody)
    (h : ∀ b ∈ bs, (castFieldsFull b).isOk = true) :
    ∃ ws : List Worker,
      postWorkers st none bs
        = (.ok ⟨201, .workersJson ws⟩, ⟨st.docs ++ ws, st.nextId + bs.length⟩)
      ∧ ws.length = bs.length
      ∧ (ws.map Worker._id).Nodup := by
  obtain ⟨ws, hws, hids⟩ := buildMany_ok_of_all bs st.nextId h
  refine ⟨ws, by simp [postWorkers, hws], ?_, ?_⟩
  · have hlen := congrArg List.length hids
    simpa using hlen
  · rw [hids]
    exact List.nodup_range' st.nextId bs.length

/-- Witness for C5: bulk-creating two valid field sets on the empty store. -/
theorem postWorkers_bulk_spec_w :
    ∃ ws : List Worker,
      postWorkers emptyStore none [bAna, ⟨[("name", .jstr "Bo")]⟩]
        = (.ok ⟨201, .workersJson ws⟩, ⟨[] ++ ws, 0 + 2⟩)
      ∧ ws.length = 2
      ∧ (ws.map Worker._id).Nodup :=
  postWorkers_bulk_spec emptyStore [bAna, ⟨[("name", .jstr "Bo")]⟩] (by decide)

/-- C6: a bulk-create request in which some element fails validation
answers a single status-400 error for the whole batch and inserts nothing
(the store is unchanged), whatever the store fault. -/
theorem postWorkers_batch_400 (st : StoreState) (fault : Option String)
    (bs : List ReqBody) (b : ReqBody) (hb : b ∈ bs)
    (hbad : (castFieldsFull b).isOk = false) :
    ∃ m, postWorkers st fault bs = (.ok ⟨400, .messageJson m⟩, st) := by
  obtain ⟨m, hm⟩ := buildMany_error_of_mem bs st.nextId b hb hbad
  exact ⟨m, by simp [postWorkers, hm]⟩

/-- Witness for C6: the batch `[bAna, bBadDate]` whose second element has
an unparseable `permitVisaExpiry`. -/
theorem postWorkers_batch_400_w :
    ∃ m, postWorkers emptyStore none [bAna, bBadDate]
      = (.ok ⟨400, .messageJson m⟩, emptyStore) :=
  postWorkers_batch_400 emptyStore none [bAna, bBadDate] bBadDate (by decide) (by decide)

/-- C7: a single-create request whose `permitVisaExpiry` does not cast to a
date or whose `RMPaid` does not cast to a number answers status 400 with an
error message and creates no record (the store is unchanged); a request
passing validation answers status 201 with the created record, whose
identity key is the store-assigned fresh key. -/
theorem postWorker_validation_spec (st : StoreState) (b : ReqBody) :
    (castOpt castDateV (b.get "permitVisaExpiry") = none
       ∨ castOpt castNumV (b.get "RMPaid") = none →
      ∃ m, postWorker st none b = (.ok ⟨400, .messageJson m⟩, st))
    ∧ (∀ f, castFields6 b = .ok f →
      postWorker st none b
        = (.ok ⟨201, .workerJson (f.toWorker st.nextId)⟩,
           ⟨st.docs ++ [f.toWorker st.nextId], st.nextId + 1⟩)
      ∧ (f.toWorker st.nextId)._id = st.nextId) := by
  constructor
  · intro hbad
    have herr : ∃ m, castFields6 b = .error m := by
      unfold castFields6
      rcases hbad with hdv | hnv
      · rw [hdv]; exact ⟨_, rfl⟩
      · rw [hnv]
        cases castOpt castDateV (b.get "permitVisaExpiry") <;> exact ⟨_, rfl⟩
    obtain ⟨m, hm⟩ := herr
    exact ⟨m, by simp [postWorker, hm]⟩
  · intro f hf
    exact ⟨by simp [postWorker, hf], rfl⟩

/-- Witness for C7: `{"permitVisaExpiry":"not-a-date"}` is rejected with a
400 and no record, `{"name":"Ana","RMPaid":100}` is created as `wAna` with
identity key 0. -/
theorem postWorker_validation_spec_w :
    (∃ m, postWorker emptyStore none bBadDate = (.ok ⟨400, .messageJson m⟩, emptyStore))
    ∧ postWorker emptyStore none bAna = (.ok ⟨201, .workerJson wAna⟩, ⟨[wAna], 1⟩)
    ∧ wAna._id = 0 := by
  refine ⟨(postWorker_validation_spec emptyStore bBadDate).1 (Or.inl rfl), ?_, rfl⟩
  exact ((postWorker_validation_spec emptyStore bAna).2
    ⟨none, some "Ana", none, none, none, none, some 100⟩ rfl).1

/-- C8: each mutating operation applied to an existing record answers with
the resulting record state: `PUT /worker/:id` returns the merged document
that is now stored, `PUT /worker/:id/updateRMPaid` returns the document
with the new `RMPaid` that is now stored, and `DELETE /worker/:id` returns
the removed record's final state. -/
theorem mutators_return_result_state (st : StoreState) (wid : Nat) (w : Worker)
    (h : st.findDoc wid = some w) :
    (∀ b u, castUpdate b = .ok u →
      (putWorker st none wid b).1 = .ok ⟨200, .workerJson (u.apply w)⟩
      ∧ (putWorker st none wid b).2.findDoc wid = some (u.apply w))
    ∧ (∀ n : Int,
      (putUpdateRMPaid st none wid ⟨[("RMPaid", JValue.jnum n)]⟩).1
        = .ok ⟨200, .workerJson { w with RMPaid := some n }⟩
      ∧ (putUpdateRMPaid st none wid ⟨[("RMPaid", JValue.jnum n)]⟩).2.findDoc wid
        = some { w with RMPaid := some n })
    ∧ (deleteWorkerById st none wid).1 = .ok ⟨200, .workerJson w⟩ := by
  refine ⟨fun b u hc => ?_, fun n => ?_, ?_⟩
  · have hkey := putWorker_eq st wid w b u hc h
    refine ⟨by rw [hkey], ?_⟩
    rw [hkey]
    exact findDoc_map_applyAt st st.nextId wid u.apply (fun d => rfl) w h
  · have hkey := putUpdateRMPaid_eq st wid w n h
    refine ⟨by rw [hkey], ?_⟩
    rw [hkey]
    exact findDoc_map_applyAt st st.nextId wid
      (fun d => { d with RMPaid := some n }) (fun d => rfl) w h
  · simp [deleteWorkerById, StoreState.deleteById, h]

/-- Witness for C8: renaming, paying and deleting `wAna` in `stAna` each
return the post-mutation state. -/
theorem mutators_return_result_state_w :
    (putWorker stAna none 0 ⟨[("name", JValue.jstr "Bob")]⟩).1
      = .ok ⟨200, .workerJson { wAna with name := some "Bob" }⟩
    ∧ (putUpdateRMPaid stAna none 0 ⟨[("RMPaid", JValue.jnum 150)]⟩).1
      = .ok ⟨200, .workerJson { wAna with RMPaid := some 150 }⟩
    ∧ (deleteWorkerById stAna none 0).1 = .ok ⟨200, .workerJson wAna⟩ := by
  have h := mutators_return_result_state stAna 0 wAna rfl
  exact ⟨(h.1 ⟨[("name", JValue.jstr "Bob")]⟩
            ⟨none, some (some "Bob"), none, none, none, none, none⟩ rfl).1,
         (h.2.1 150).1, h.2.2⟩

/-- C10: the single-create handler reads exactly the six body fields
`name`, `phoneNumber`, `status`, `passportNumber`, `permitVisaExpiry`,
`RMPaid`: two bodies agreeing on those six produce identical outcomes
whatever other fields (including a client-supplied identity key) they
carry, and a created record always carries the store-assigned fresh
identity key and no `id` path value. -/
theorem postWorker_reads_only_six (st : StoreState) (fault : Option String)
    (b1 b2 : ReqBody) (h : pickSix b1 = pickSix b2) :
    postWorker st fault b1 = postWorker st fault b2
    ∧ (∀ f, castFields6 b1 = .ok f →
        (f.toWorker st.nextId)._id = st.nextId ∧ (f.toWorker st.nextId).id = none) := by
  have h1 : b1.get "name" = b2.get "name" := congrArg (fun t => t.1) h
  have h2 : b1.get "phoneNumber" = b2.get "phoneNumber" := congrArg (fun t => t.2.1) h
  have h3 : b1.get "status" = b2.get "status" := congrArg (fun t => t.2.2.1) h
  have h4 : b1.get "passportNumber" = b2.get "passportNumber" :=
    congrArg (fun t => t.2.2.2.1) h
  have h5 : b1.get "permitVisaExpiry" = b2.get "permitVisaExpiry" :=
    congrArg (fun t => t.2.2.2.2.1) h
  have h6 : b1.get "RMPaid" = b2.get "RMPaid" := congrArg (fun t => t.2.2.2.2.2) h
  have hc : castFields6 b1 = castFields6 b2 := by
    unfold castFields6
    rw [h1, h2, h3, h4, h5, h6]
  constructor
  · unfold postWorker
    rw [hc]
  · intro f hf
    exact ⟨rfl, castFields6_id_none b1 f hf⟩

/-- Witness for C10: `bAnaExtra` adds a client `_id`, an `id` and a
non-schema field to `bAna`, yet creation behaves identically and the
created record is `wAna` with the store-assigned key. -/
theorem postWorker_reads_only_six_w :
    postWorker emptyStore none bAna = postWorker emptyStore none bAnaExtra
    ∧ wAna._id = 0 ∧ wAna.id = none := by
  have h := postWorker_reads_only_six emptyStore none bAna bAnaExtra rfl
  exact ⟨h.1,
         (h.2 ⟨none, some "Ana", none, none, none, none, some 100⟩ rfl).1,
         (h.2 ⟨none, some "Ana", none, none, none, none, some 100⟩ rfl).2⟩

end WorkerApi
